import Mathlib

/-!
Shallow embedding of the order-notify repository (Django/Celery order
management service) and proofs about its specification claims.

The embedding follows the source files:
* `src/apps/orders/models.py` — status enum, transition table, order-number
  generation, the `Order` model and its default ordering;
* `src/apps/orders/services.py` — `create_order`, `get_orders`,
  `update_order_status` with transactional semantics and on-commit jobs;
* `src/apps/orders/schemas.py` — field validation of the request schemas;
* `src/apps/orders/tasks.py` — the Slack notification dispatcher and its
  retry classification;
* `src/config/urls.py` — the integrity-error exception handler.

Database rows are modelled as a list of records, the transaction as explicit
state passing (a failing operation returns the caller's store unchanged,
modelling rollback), `transaction.on_commit` as the job list attached to a
successful result, randomness as an indexed source `rand : Nat → Nat`, and
timestamps as natural numbers.
-/

namespace OrderNotify

/-- The five order statuses of `OrderStatus` in `models.py`. -/
inductive OrderStatus where
  | pending
  | confirmed
  | shipped
  | delivered
  | cancelled
deriving DecidableEq, Repr

/-- The string value of each status (Django `TextChoices` value). -/
def OrderStatus.value : OrderStatus → String
  | .pending => "pending"
  | .confirmed => "confirmed"
  | .shipped => "shipped"
  | .delivered => "delivered"
  | .cancelled => "cancelled"

/-- `OrderStatus.values` — the list of recognized status strings. -/
def OrderStatus.values : List String :=
  ["pending", "confirmed", "shipped", "delivered", "cancelled"]

/-- `VALID_TRANSITIONS` from `models.py`: allowed destination statuses. -/
def VALID_TRANSITIONS : OrderStatus → List OrderStatus
  | .pending => [.confirmed, .cancelled]
  | .confirmed => [.shipped, .cancelled]
  | .shipped => [.delivered]
  | .delivered => []
  | .cancelled => []

/-- A row of the `Order` model.  `id` models the uuid7 primary key,
`price` is the fixed-point decimal in hundredths, timestamps are `Nat`. -/
structure Order where
  id : Nat
  order_number : String
  customer_name : String
  product_name : String
  quantity : Nat
  price : Int
  status : OrderStatus
  created_at : Nat
  updated_at : Nat
deriving DecidableEq, Repr

/-- The relational store: the order table plus the id generator state. -/
structure Store where
  orders : List Order
  nextId : Nat
deriving DecidableEq, Repr

/-- `string.ascii_uppercase + string.digits`, the alphabet
`random.choices` draws order-number suffix characters from. -/
def ascii_uppercase_and_digits : List Char :=
  "ABCDEFGHIJKLMNOPQRSTUVWXYZ0123456789".toList

/-- `random.choices(ascii_uppercase + digits, k=6)`: six characters drawn
from the 36-character alphabet, consuming indices `base .. base+5` of the
random source. -/
def choices6 (rand : Nat → Nat) (base : Nat) : List Char :=
  (List.range 6).map fun i => ascii_uppercase_and_digits.getD (rand (base + i) % 36) 'A'

/-- The candidate order number produced on generation attempt `attempt`
inside `generate_order_number` (`f"ORD-{suffix}"`). -/
def candidate_order_number (rand : Nat → Nat) (attempt : Nat) : String :=
  "ORD-" ++ String.mk (choices6 rand (6 * attempt))

/-- `Order.objects.filter(order_number=n).exists()`. -/
def order_number_exists (orders : List Order) (n : String) : Bool :=
  orders.any fun o => o.order_number == n

/-- `generate_order_number` from `models.py`: up to 5 attempts that check
the store for a collision, then one final unchecked attempt whose collision
is left to the unique constraint. -/
def generate_order_number (rand : Nat → Nat) (orders : List Order) : String :=
  match (List.range 5).find?
      (fun a => !order_number_exists orders (candidate_order_number rand a)) with
  | some a => candidate_order_number rand a
  | none => candidate_order_number rand 5

/-- The spec-side format check: the claim's regular expression
`ORD-[A-Z0-9]{6}` as a decidable predicate on strings. -/
def matches_order_number_format (s : String) : Bool :=
  match s.data with
  | 'O' :: 'R' :: 'D' :: '-' :: rest =>
    rest.length == 6 && rest.all fun c => ascii_uppercase_and_digits.contains c
  | _ => false

/-- `OrderCreateSchema` from `schemas.py`. -/
structure OrderCreateSchema where
  customer_name : String
  product_name : String
  quantity : Nat
  price : Int
deriving DecidableEq, Repr

/-- `OrderStatusUpdateSchema` from `schemas.py`: a raw status string. -/
structure OrderStatusUpdateSchema where
  status : String
deriving DecidableEq, Repr

/-- Pydantic field validation of `OrderCreateSchema`: names non-empty and
length-bounded, `quantity ≥ 1`, `price ≥ 0`. -/
def validate_order_create (d : OrderCreateSchema) : Bool :=
  1 ≤ d.customer_name.length && d.customer_name.length ≤ 100 &&
  1 ≤ d.product_name.length && d.product_name.length ≤ 200 &&
  1 ≤ d.quantity && 0 ≤ d.price

/-- The pattern `^(pending|confirmed|shipped|delivered|cancelled)$` of
`OrderStatusUpdateSchema.status`, as a parser into the enum. -/
def statusOfString : String → Option OrderStatus
  | "pending" => some .pending
  | "confirmed" => some .confirmed
  | "shipped" => some .shipped
  | "delivered" => some .delivered
  | "cancelled" => some .cancelled
  | _ => none

/-- The application error taxonomy of `apps/core/exceptions.py`, plus the
database `IntegrityError` handled in `config/urls.py`. -/
inductive AppError where
  | NotFoundError (message : String)
  | AppValidationError (message : String)
  | InvalidStateError (message : String)
  | IntegrityError (message : String)
deriving DecidableEq, Repr

/-- A queued notification job (`send_order_notification.delay(id, event)`). -/
structure NotificationJob where
  order_id : Nat
  event : String
deriving DecidableEq, Repr

/-- Result of a state-mutating service call: the outcome, the store after
the transaction (unchanged when it rolled back), and the notification jobs
enqueued by `transaction.on_commit` (empty when the transaction failed). -/
structure ServiceResult (α : Type) where
  result : Except AppError α
  store : Store
  jobs : List NotificationJob
deriving Repr

/-- `create_order` from `services.py`: generate an order number, insert the
row (the unique constraint on `order_number` raising `IntegrityError` on
collision), and enqueue one "created" notification job on commit. -/
def create_order (rand : Nat → Nat) (now : Nat) (store : Store)
    (data : OrderCreateSchema) : ServiceResult Order :=
  let number := generate_order_number rand store.orders
  if order_number_exists store.orders number then
    { result := .error (.IntegrityError "UNIQUE constraint failed: order_number"),
      store := store, jobs := [] }
  else
    let order : Order :=
      { id := store.nextId, order_number := number,
        customer_name := data.customer_name, product_name := data.product_name,
        quantity := data.quantity, price := data.price,
        status := .pending, created_at := now, updated_at := now }
    { result := .ok order,
      store := { orders := store.orders ++ [order], nextId := store.nextId + 1 },
      jobs := [⟨order.id, "created"⟩] }

/-- The API layer in front of `create_order`: pydantic schema validation
rejects the request (HTTP 422) before the service runs. -/
def api_create_order (rand : Nat → Nat) (now : Nat) (store : Store)
    (data : OrderCreateSchema) : ServiceResult Order :=
  if validate_order_create data then create_order rand now store data
  else { result := .error (.AppValidationError "422 unprocessable entity"),
         store := store, jobs := [] }

/-- `update_order_status` from `services.py`: look the row up under
`select_for_update`, check the transition table, persist only `status` and
`updated_at`, and enqueue one "status_updated" job on commit. -/
def update_order_status (now : Nat) (store : Store) (order_id : Nat)
    (new_status : OrderStatus) : ServiceResult Order :=
  match store.orders.find? (fun o => o.id == order_id) with
  | none =>
    { result := .error (.NotFoundError ("Order " ++ toString order_id ++ " not found")),
      store := store, jobs := [] }
  | some order =>
    let allowed := VALID_TRANSITIONS order.status
    if allowed.contains new_status then
      let updated := { order with status := new_status, updated_at := now }
      { result := .ok updated,
        store := { store with
          orders := store.orders.map fun o => if o.id == order_id then updated else o },
        jobs := [⟨order_id, "status_updated"⟩] }
    else
      { result := .error (.InvalidStateError
          ("Cannot transition from " ++ order.status.value ++ " to " ++ new_status.value)),
        store := store, jobs := [] }

/-- The API layer in front of `update_order_status`: the schema pattern on
the status string rejects unrecognized values (HTTP 422) before the service
runs. -/
def api_update_order_status (now : Nat) (store : Store) (order_id : Nat)
    (data : OrderStatusUpdateSchema) : ServiceResult Order :=
  match statusOfString data.status with
  | some st => update_order_status now store order_id st
  | none => { result := .error (.AppValidationError "422 unprocessable entity"),
              store := store, jobs := [] }

/-- The `Meta.ordering = ["-created_at"]` relation: most recent first. -/
def created_ge (a b : Order) : Prop := b.created_at ≤ a.created_at

instance : DecidableRel created_ge := fun a b => Nat.decLe b.created_at a.created_at

instance : IsTotal Order created_ge :=
  ⟨fun a b => (Nat.le_total b.created_at a.created_at).imp id id⟩

instance : IsTrans Order created_ge :=
  ⟨fun _ _ _ h1 h2 => Nat.le_trans h2 h1⟩

/-- The queryset ordering applied by `Order.Meta.ordering`. -/
def order_by_created_desc (orders : List Order) : List Order :=
  List.insertionSort created_ge orders

/-- `get_orders` from `services.py`: optional status filter (skipped when
the filter is `None` or the empty string, per Python truthiness), count,
then the `[offset : offset + page_size]` slice. -/
def get_orders (store : Store) (page : Nat) (page_size : Nat)
    (status : Option String) : Except AppError (List Order × Nat) :=
  let qs := order_by_created_desc store.orders
  let filtered : Except AppError (List Order) :=
    match status with
    | some s =>
      if s ≠ "" then
        if OrderStatus.values.contains s then
          .ok (qs.filter fun o => o.status.value == s)
        else
          .error (.AppValidationError ("Invalid status: " ++ s))
      else .ok qs
    | none => .ok qs
  match filtered with
  | .error e => .error e
  | .ok qs2 =>
    let total := qs2.length
    let offset := (page - 1) * page_size
    .ok ((qs2.drop offset).take page_size, total)

/-- The response of `handle_integrity_error` in `config/urls.py`. -/
structure ErrorResponse where
  status : Nat
  error : String
  code : String
deriving DecidableEq, Repr

/-- `handle_integrity_error`: the store-level uniqueness violation is
surfaced as HTTP 400 with machine code `INTEGRITY_ERROR`. -/
def handle_integrity_error : ErrorResponse :=
  { status := 400, error := "Resource already exists or constraint violated",
    code := "INTEGRITY_ERROR" }

/-! The notification dispatcher, `send_order_notification` in
`src/apps/orders/tasks.py`. -/

/-- The Slack settings the task reads (`SLACK_ENABLED`, `SLACK_BOT_TOKEN`,
`SLACK_CHANNEL`). -/
structure SlackSettings where
  SLACK_ENABLED : Bool
  SLACK_BOT_TOKEN : String
  SLACK_CHANNEL : String
deriving DecidableEq, Repr

/-- The JSON body of the provider response (`data.get("ok")`,
`data.get("error")`). -/
structure SlackResponse where
  ok : Bool
  error : Option String
deriving DecidableEq, Repr

/-- Outcome of the outbound `client.post` together with
`raise_for_status()`: either a 2xx response with a parsed body, or an
`httpx.HTTPError` (network failure or non-2xx status). -/
inductive TransportResult where
  | success (resp : SlackResponse)
  | transport_failure (message : String)
deriving DecidableEq, Repr

/-- Observable outcome of one execution of the task body: the returned
result dicts, or an `httpx.HTTPError` raised out of the body (which the
`autoretry_for` decorator turns into a backoff retry). -/
inductive TaskOutcome where
  | skipped (reason : String)
  | errorResult (reason : String)
  | sent (order_number : String)
  | raisedHTTPError (message : String)
deriving DecidableEq, Repr

/-- The `non_retriable` set of provider error codes in the task. -/
def non_retriable : List String :=
  ["invalid_auth", "channel_not_found", "not_in_channel", "is_archived"]

/-- The `@shared_task` retry configuration of `send_order_notification`. -/
structure RetryPolicy where
  autoretry_for_HTTPError : Bool
  retry_backoff : Bool
  retry_backoff_max : Nat
  retry_jitter : Bool
  max_retries : Nat
deriving DecidableEq, Repr

/-- The decorator arguments on `send_order_notification`: retriable
failures are retried with jittered exponential backoff capped at 60s, at
most 3 times. -/
def send_order_notification_retry_policy : RetryPolicy :=
  { autoretry_for_HTTPError := true, retry_backoff := true,
    retry_backoff_max := 60, retry_jitter := true, max_retries := 3 }

/-- One execution of the `send_order_notification` task body.  The second
component records whether the provider was contacted (`client.post` ran).
The transport outcome is passed in as the environment of the call. -/
def send_order_notification (settings : SlackSettings) (orders : List Order)
    (transport : TransportResult) (order_id : Nat) (event : String) :
    TaskOutcome × Bool :=
  if !settings.SLACK_ENABLED then
    (.skipped "slack_disabled", false)
  else if settings.SLACK_BOT_TOKEN == "" || settings.SLACK_CHANNEL == "" then
    (.skipped "no_slack_config", false)
  else
    match orders.find? (fun o => o.id == order_id) with
    | none => (.errorResult "order_not_found", false)
    | some order =>
      match transport with
      | .transport_failure m => (.raisedHTTPError m, true)
      | .success resp =>
        if !resp.ok then
          let error_code := resp.error.getD "unknown"
          if non_retriable.contains error_code then
            (.errorResult error_code, true)
          else
            (.raisedHTTPError ("Slack API error: " ++ error_code), true)
        else
          (.sent order.order_number, true)

/-! Concrete fixtures shared by the witness theorems. -/

/-- A pending order used as a concrete witness input. -/
def sampleOrder : Order :=
  { id := 1, order_number := "ORD-AAAAAA", customer_name := "Alice",
    product_name := "Widget", quantity := 1, price := 100,
    status := .pending, created_at := 0, updated_at := 0 }

/-- A one-row store used as a concrete witness input. -/
def sampleStore : Store := { orders := [sampleOrder], nextId := 2 }

/-- An empty store. -/
def emptyStore : Store := { orders := [], nextId := 0 }

/-- A deterministic random source: always 0, so every generated candidate
order number is `ORD-AAAAAA`. -/
def zeroRand : Nat → Nat := fun _ => 0

/-- A valid creation input used as a concrete witness. -/
def sampleCreate : OrderCreateSchema :=
  { customer_name := "Alice", product_name := "Widget", quantity := 1, price := 100 }

/-- Enabled Slack settings used as a concrete witness. -/
def sampleSettings : SlackSettings :=
  { SLACK_ENABLED := true, SLACK_BOT_TOKEN := "xoxb-token", SLACK_CHANNEL := "#orders" }

/-- The order `api_create_order zeroRand 0 emptyStore sampleCreate`
produces: the first generated candidate `ORD-AAAAAA` is free in the empty
store. -/
def sampleCreatedOrder : Order :=
  { id := 0, order_number := "ORD-AAAAAA", customer_name := "Alice",
    product_name := "Widget", quantity := 1, price := 100,
    status := .pending, created_at := 0, updated_at := 0 }

/-! ## Theorems -/

/-- Every index into the 36-character alphabet, reduced mod 36, selects a
character of the alphabet. -/
theorem alphabet_getD_contains (n : Nat) :
    ascii_uppercase_and_digits.contains
      (ascii_uppercase_and_digits.getD (n % 36) 'A') = true := by
  have hlen : ascii_uppercase_and_digits.length = 36 := by decide
  have h : n % 36 < ascii_uppercase_and_digits.length := by
    rw [hlen]; exact Nat.mod_lt _ (by decide)
  rw [List.getD_eq_getElem _ _ h]
  exact List.elem_eq_true_of_mem (List.getElem_mem h)

/-- Every candidate produced inside `generate_order_number` matches the
format `ORD-[A-Z0-9]{6}`. -/
theorem matches_candidate (rand : Nat → Nat) (a : Nat) :
    matches_order_number_format (candidate_order_number rand a) = true := by
  have hdata : (candidate_order_number rand a).data
      = 'O' :: 'R' :: 'D' :: '-' :: choices6 rand (6 * a) := by
    simp [candidate_order_number, String.data_append]
  unfold matches_order_number_format
  rw [hdata]
  simp only [Bool.and_eq_true, beq_iff_eq, List.all_eq_true]
  refine ⟨by simp [choices6], ?_⟩
  intro c hc
  simp only [choices6, List.mem_map, List.mem_range] at hc
  obtain ⟨i, _, rfl⟩ := hc
  exact alphabet_getD_contains _

/-- `generate_order_number` always returns one of the candidates, so its
result matches the format `ORD-[A-Z0-9]{6}`. -/
theorem matches_generate_order_number (rand : Nat → Nat) (orders : List Order) :
    matches_order_number_format (generate_order_number rand orders) = true := by
  unfold generate_order_number
  cases hf : (List.range 5).find?
      (fun a => !order_number_exists orders (candidate_order_number rand a)) with
  | none => exact matches_candidate rand 5
  | some a => exact matches_candidate rand a

/-- C1: for an existing order, `update_order_status` succeeds exactly when
the target status is an allowed destination of the current status per
`VALID_TRANSITIONS`, fails with `InvalidStateError` otherwise, and the
terminal states `delivered` and `cancelled` allow no destination at all. -/
theorem C1_update_status_follows_transition_table
    (now : Nat) (store : Store) (oid : Nat) (o : Order)
    (hfind : store.orders.find? (fun x => x.id == oid) = some o)
    (tgt : OrderStatus) :
    ((∃ o2, (update_order_status now store oid tgt).result = .ok o2) ↔
      tgt ∈ VALID_TRANSITIONS o.status) ∧
    (tgt ∉ VALID_TRANSITIONS o.status →
      ∃ m, (update_order_status now store oid tgt).result = .error (.InvalidStateError m)) ∧
    VALID_TRANSITIONS .pending = [.confirmed, .cancelled] ∧
    VALID_TRANSITIONS .confirmed = [.shipped, .cancelled] ∧
    VALID_TRANSITIONS .shipped = [.delivered] ∧
    VALID_TRANSITIONS .delivered = [] ∧
    VALID_TRANSITIONS .cancelled = [] := by
  refine ⟨?_, ?_, rfl, rfl, rfl, rfl, rfl⟩ <;>
    ·
      unfold update_order_status
      rw [hfind]
      by_cases hm : tgt ∈ VALID_TRANSITIONS o.status <;>
        simp [hm, List.elem_iff]

/-- Witness for C1: in the one-row sample store, the pending sample order
may transition to `confirmed`. -/
theorem C1_witness :
    sampleStore.orders.find? (fun x => x.id == 1) = some sampleOrder ∧
    ((∃ o2, (update_order_status 5 sampleStore 1 .confirmed).result = .ok o2) ↔
      OrderStatus.confirmed ∈ VALID_TRANSITIONS sampleOrder.status) := by
  have hfind : sampleStore.orders.find? (fun x => x.id == 1) = some sampleOrder := by
    decide
  exact ⟨hfind,
    (C1_update_status_follows_transition_table 5 sampleStore 1 sampleOrder hfind .confirmed).1⟩

/-- C2: a successful creation from a valid input yields an order whose
status is `pending` and whose order number matches `ORD-[A-Z0-9]{6}`. -/
theorem C2_create_order_pending_with_formatted_number
    (rand : Nat → Nat) (now : Nat) (store : Store) (data : OrderCreateSchema)
    (hvalid : validate_order_create data = true) (o : Order)
    (hok : (api_create_order rand now store data).result = .ok o) :
    o.status = .pending ∧ matches_order_number_format o.order_number = true := by
  unfold api_create_order at hok
  rw [if_pos hvalid] at hok
  unfold create_order at hok
  by_cases hex : order_number_exists store.orders
      (generate_order_number rand store.orders) = true
  · simp [hex] at hok
  · simp only [Bool.not_eq_true] at hex
    simp only [hex, Bool.false_eq_true, if_false, Except.ok.injEq] at hok
    subst hok
    exact ⟨rfl, matches_generate_order_number rand store.orders⟩

/-- Witness for C2: creating the sample order in the empty store yields a
pending order numbered `ORD-AAAAAA`. -/
theorem C2_witness :
    validate_order_create sampleCreate = true ∧
    (api_create_order zeroRand 0 emptyStore sampleCreate).result = .ok sampleCreatedOrder ∧
    sampleCreatedOrder.status = .pending ∧
    matches_order_number_format sampleCreatedOrder.order_number = true := by
  have hok : (api_create_order zeroRand 0 emptyStore sampleCreate).result
      = .ok sampleCreatedOrder := by rfl
  have h := C2_create_order_pending_with_formatted_number zeroRand 0 emptyStore sampleCreate
    (by decide) sampleCreatedOrder hok
  exact ⟨by decide, hok, h.1, h.2⟩

/-- If every one of the six generation attempts collides, the generator
falls through to the final unchecked candidate. -/
theorem generate_order_number_all_collide (rand : Nat → Nat) (orders : List Order)
    (hcollide : ∀ a, a < 6 →
      order_number_exists orders (candidate_order_number rand a) = true) :
    generate_order_number rand orders = candidate_order_number rand 5 := by
  unfold generate_order_number
  have hnone : (List.range 5).find?
      (fun a => !order_number_exists orders (candidate_order_number rand a)) = none := by
    rw [List.find?_eq_none]
    intro a ha
    rw [List.mem_range] at ha
    simp [hcollide a (by omega)]
  rw [hnone]

/-- C3: when the generated order number collides with an existing one on
every attempt (the five checked retries and the final unchecked one),
insertion fails with the store-level uniqueness violation — the error kind
the spec calls `ConflictError`, surfaced here as the database
`IntegrityError` that `handle_integrity_error` maps to HTTP 400 with code
`INTEGRITY_ERROR` — the transaction rolls back and no job is enqueued. -/
theorem C3_create_order_collision_conflict
    (rand : Nat → Nat) (now : Nat) (store : Store) (data : OrderCreateSchema)
    (hcollide : ∀ a, a < 6 →
      order_number_exists store.orders (candidate_order_number rand a) = true) :
    (create_order rand now store data).result
      = .error (.IntegrityError "UNIQUE constraint failed: order_number") ∧
    (create_order rand now store data).store = store ∧
    (create_order rand now store data).jobs = [] ∧
    handle_integrity_error.status = 400 ∧
    handle_integrity_error.code = "INTEGRITY_ERROR" := by
  have hgen := generate_order_number_all_collide rand store.orders hcollide
  have hex := hcollide 5 (by omega)
  simp [create_order, hgen, hex]
  exact ⟨rfl, rfl⟩

/-- Witness for C3: with the constant-zero random source, every candidate
is `ORD-AAAAAA`, which the sample store already holds, so creation fails
with the uniqueness violation. -/
theorem C3_witness :
    (∀ a, a < 6 →
      order_number_exists sampleStore.orders (candidate_order_number zeroRand a) = true) ∧
    (create_order zeroRand 7 sampleStore sampleCreate).result
      = .error (.IntegrityError "UNIQUE constraint failed: order_number") ∧
    (create_order zeroRand 7 sampleStore sampleCreate).store = sampleStore ∧
    (create_order zeroRand 7 sampleStore sampleCreate).jobs = [] := by
  have hcollide : ∀ a, a < 6 →
      order_number_exists sampleStore.orders (candidate_order_number zeroRand a) = true := by
    decide
  have h := C3_create_order_collision_conflict zeroRand 7 sampleStore sampleCreate hcollide
  exact ⟨hcollide, h.1, h.2.1, h.2.2.1⟩

/-- The queryset ordering is a permutation of the table, so it has the
same length. -/
theorem length_order_by_created_desc (orders : List Order) :
    (order_by_created_desc orders).length = orders.length :=
  (List.perm_insertionSort created_ge orders).length_eq

/-- The queryset ordering is sorted most-recent-first. -/
theorem sorted_order_by_created_desc (orders : List Order) :
    List.Pairwise created_ge (order_by_created_desc orders) :=
  List.sorted_insertionSort created_ge orders

/-- C4: an unfiltered listing of page `k` with page size `P ∈ [1,100]`
slices the most-recent-first ordering at offset `(k-1)·P`, returns
`min(P, N-(k-1)·P)` items (0 when the pages are exhausted, by truncated
subtraction), the items are in descending creation order, and the reported
total is `N` whatever page was requested. -/
theorem C4_pagination
    (store : Store) (P k : Nat) (hP1 : 1 ≤ P) (hP2 : P ≤ 100) (hk : 1 ≤ k) :
    ∃ items, get_orders store k P none = .ok (items, store.orders.length) ∧
      items = ((order_by_created_desc store.orders).drop ((k - 1) * P)).take P ∧
      items.length = min P (store.orders.length - (k - 1) * P) ∧
      List.Pairwise created_ge items := by
  refine ⟨((order_by_created_desc store.orders).drop ((k - 1) * P)).take P, ?_, rfl, ?_, ?_⟩
  · simp [get_orders, length_order_by_created_desc]
  · rw [List.length_take, List.length_drop, length_order_by_created_desc]
  · exact List.Pairwise.sublist ((List.take_sublist _ _).trans (List.drop_sublist _ _))
      (sorted_order_by_created_desc store.orders)

/-- Witness for C4: page 1 of size 20 over the one-row sample store. -/
theorem C4_witness :
    ∃ items, get_orders sampleStore 1 20 none = .ok (items, sampleStore.orders.length) ∧
      items = ((order_by_created_desc sampleStore.orders).drop ((1 - 1) * 20)).take 20 ∧
      items.length = min 20 (sampleStore.orders.length - (1 - 1) * 20) ∧
      List.Pairwise created_ge items :=
  C4_pagination sampleStore 20 1 (by decide) (by decide) (by decide)

/-- C5: filtering by a status string that is neither empty nor one of the
five recognized values fails with `ValidationError`; filtering by a
recognized value returns only orders whose status equals that exact
value. -/
theorem C5_status_filter_validation
    (store : Store) (page page_size : Nat) (s : String) :
    (s ≠ "" → s ∉ OrderStatus.values →
      ∃ m, get_orders store page page_size (some s) = .error (.AppValidationError m)) ∧
    (s ∈ OrderStatus.values →
      ∃ items total, get_orders store page page_size (some s) = .ok (items, total) ∧
        ∀ o ∈ items, o.status.value = s) := by
  constructor
  · intro hne hnm
    have hc : OrderStatus.values.contains s = false := by
      rw [Bool.eq_false_iff]
      intro h
      exact hnm (List.elem_iff.mp h)
    exact ⟨"Invalid status: " ++ s, by simp [get_orders, hne, hc, hnm]⟩
  · intro hm
    have hne : s ≠ "" := by
      simp only [OrderStatus.values, List.mem_cons, List.not_mem_nil, or_false] at hm
      rcases hm with rfl | rfl | rfl | rfl | rfl <;> decide
    have hc : OrderStatus.values.contains s = true := List.elem_eq_true_of_mem hm
    refine ⟨(((order_by_created_desc store.orders).filter
        fun o => o.status.value == s).drop ((page - 1) * page_size)).take page_size,
      ((order_by_created_desc store.orders).filter
        fun o => o.status.value == s).length, ?_, ?_⟩
    · simp [get_orders, hne, hc, hm]
    · intro o ho
      have h1 := (List.take_sublist _ _).subset ho
      have h2 := (List.drop_sublist _ _).subset h1
      exact eq_of_beq (List.mem_filter.mp h2).2

/-- Witness for C5: filtering the sample store by `bogus` is rejected,
filtering by `shipped` returns only shipped orders. -/
theorem C5_witness :
    ("bogus" ≠ "" ∧ "bogus" ∉ OrderStatus.values ∧
      ∃ m, get_orders sampleStore 1 20 (some "bogus") = .error (.AppValidationError m)) ∧
    ("shipped" ∈ OrderStatus.values ∧
      ∃ items total, get_orders sampleStore 1 20 (some "shipped") = .ok (items, total) ∧
        ∀ o ∈ items, o.status.value = "shipped") := by
  have hne : "bogus" ≠ "" := by decide
  have hnm : "bogus" ∉ OrderStatus.values := by decide
  have hm : "shipped" ∈ OrderStatus.values := by decide
  exact ⟨⟨hne, hnm, (C5_status_filter_validation sampleStore 1 20 "bogus").1 hne hnm⟩,
    ⟨hm, (C5_status_filter_validation sampleStore 1 20 "shipped").2 hm⟩⟩

/-- C10: listing with a status filter equal to the empty string is treated
as no filter at all (Python truthiness of `if status:`): it returns the
same result as the unfiltered listing and succeeds, even though the empty
string is not a recognized status value. -/
theorem C10_empty_string_filter_is_no_filter
    (store : Store) (page page_size : Nat) :
    get_orders store page page_size (some "") = get_orders store page page_size none ∧
    (∃ items total, get_orders store page page_size (some "") = .ok (items, total)) ∧
    "" ∉ OrderStatus.values := by
  refine ⟨by simp [get_orders], ?_, by decide⟩
  exact ⟨((order_by_created_desc store.orders).drop ((page - 1) * page_size)).take page_size,
    (order_by_created_desc store.orders).length, by simp [get_orders]⟩

/-- Characterization of `api_create_order`: it either succeeds and enqueues
exactly the one "created" job for the new order, or fails leaving the store
untouched and the job queue empty. -/
theorem api_create_order_cases (rand : Nat → Nat) (now : Nat) (store : Store)
    (data : OrderCreateSchema) :
    (∃ o, (api_create_order rand now store data).result = .ok o ∧
      (api_create_order rand now store data).jobs = [⟨o.id, "created"⟩]) ∨
    (∃ e, (api_create_order rand now store data).result = .error e ∧
      (api_create_order rand now store data).jobs = [] ∧
      (api_create_order rand now store data).store = store) := by
  unfold api_create_order create_order
  by_cases hv : validate_order_create data = true
  · by_cases hex : order_number_exists store.orders
        (generate_order_number rand store.orders) = true
    · right
      refine ⟨.IntegrityError "UNIQUE constraint failed: order_number", ?_, ?_, ?_⟩ <;>
        simp [hv, hex]
    · left
      simp only [Bool.not_eq_true] at hex
      refine ⟨⟨store.nextId, generate_order_number rand store.orders, data.customer_name,
        data.product_name, data.quantity, data.price, .pending, now, now⟩, ?_, ?_⟩ <;>
        simp [hv, hex]
  · right
    refine ⟨.AppValidationError "422 unprocessable entity", ?_, ?_, ?_⟩ <;>
      simp [hv]

/-- Characterization of `api_update_order_status`: it either succeeds and
enqueues exactly the one "status_updated" job for the target order, or
fails leaving the store untouched and the job queue empty. -/
theorem api_update_order_status_cases (now : Nat) (store : Store) (oid : Nat)
    (data : OrderStatusUpdateSchema) :
    (∃ o, (api_update_order_status now store oid data).result = .ok o ∧
      (api_update_order_status now store oid data).jobs = [⟨oid, "status_updated"⟩]) ∨
    (∃ e, (api_update_order_status now store oid data).result = .error e ∧
      (api_update_order_status now store oid data).jobs = [] ∧
      (api_update_order_status now store oid data).store = store) := by
  unfold api_update_order_status update_order_status
  cases hs : statusOfString data.status with
  | none =>
    right
    refine ⟨.AppValidationError "422 unprocessable entity", ?_, ?_, ?_⟩ <;> simp [hs]
  | some st =>
    cases hf : store.orders.find? (fun o => o.id == oid) with
    | none =>
      right
      refine ⟨.NotFoundError ("Order " ++ toString oid ++ " not found"), ?_, ?_, ?_⟩ <;>
        simp [hs, hf]
    | some order =>
      by_cases hm : st ∈ VALID_TRANSITIONS order.status
      · left
        refine ⟨{ order with status := st, updated_at := now }, ?_, ?_⟩ <;>
          simp [hs, hf, hm]
      · right
        refine ⟨.InvalidStateError
          ("Cannot transition from " ++ order.status.value ++ " to " ++ st.value),
          ?_, ?_, ?_⟩ <;> simp [hs, hf, hm]

/-- C6: each state-mutating operation enqueues exactly one notification
job when its transaction commits, and enqueues no job and leaves the store
unchanged when it fails (validation, not-found, invalid-transition or
uniqueness failure — the rollback cases). -/
theorem C6_exactly_one_job_per_commit :
    (∀ (rand : Nat → Nat) (now : Nat) (store : Store) (data : OrderCreateSchema),
      (∀ o, (api_create_order rand now store data).result = .ok o →
        (api_create_order rand now store data).jobs = [⟨o.id, "created"⟩]) ∧
      (∀ e, (api_create_order rand now store data).result = .error e →
        (api_create_order rand now store data).jobs = [] ∧
        (api_create_order rand now store data).store = store)) ∧
    (∀ (now : Nat) (store : Store) (oid : Nat) (data : OrderStatusUpdateSchema),
      (∀ o, (api_update_order_status now store oid data).result = .ok o →
        (api_update_order_status now store oid data).jobs = [⟨oid, "status_updated"⟩]) ∧
      (∀ e, (api_update_order_status now store oid data).result = .error e →
        (api_update_order_status now store oid data).jobs = [] ∧
        (api_update_order_status now store oid data).store = store)) := by
  constructor
  · intro rand now store data
    rcases api_create_order_cases rand now store data with
      ⟨o, hok, hjobs⟩ | ⟨e, herr, hjobs, hst⟩
    · refine ⟨fun o2 hok2 => ?_, fun e2 herr2 => ?_⟩
      · rw [hok] at hok2
        cases hok2
        exact hjobs
      · rw [hok] at herr2
        cases herr2
    · refine ⟨fun o2 hok2 => ?_, fun e2 herr2 => ⟨hjobs, hst⟩⟩
      rw [herr] at hok2
      cases hok2
  · intro now store oid data
    rcases api_update_order_status_cases now store oid data with
      ⟨o, hok, hjobs⟩ | ⟨e, herr, hjobs, hst⟩
    · refine ⟨fun o2 hok2 => ?_, fun e2 herr2 => ?_⟩
      · rw [hok] at hok2
        cases hok2
        exact hjobs
      · rw [hok] at herr2
        cases herr2
    · refine ⟨fun o2 hok2 => ?_, fun e2 herr2 => ⟨hjobs, hst⟩⟩
      rw [herr] at hok2
      cases hok2

/-- Witness for C6: a successful creation enqueues the single "created"
job; a failed update (unknown id) enqueues nothing and leaves the store
unchanged. -/
theorem C6_witness :
    (api_create_order zeroRand 0 emptyStore sampleCreate).jobs = [⟨0, "created"⟩] ∧
    (api_update_order_status 1 sampleStore 99 ⟨"confirmed"⟩).jobs = [] ∧
    (api_update_order_status 1 sampleStore 99 ⟨"confirmed"⟩).store = sampleStore := by
  have h1 := (C6_exactly_one_job_per_commit.1 zeroRand 0 emptyStore sampleCreate).1
    sampleCreatedOrder (by rfl)
  have h2 := (C6_exactly_one_job_per_commit.2 1 sampleStore 99 ⟨"confirmed"⟩).2
    (.NotFoundError "Order 99 not found") (by rfl)
  exact ⟨h1, h2.1, h2.2⟩

/-- C7: when the transport succeeds but the provider replies `ok=false`,
the task returns a terminal "error" outcome with no retry exactly when the
provider error code is in the non-retriable set (invalid credentials,
channel not found, bot not a channel member, channel archived); any other
code raises `httpx.HTTPError`, which the task decorator retries under the
backoff policy.  In particular `{ok: false, error: "channel_not_found"}`
is terminal. -/
theorem C7_provider_error_classification
    (settings : SlackSettings) (orders : List Order) (oid : Nat) (event : String)
    (o : Order) (code : String)
    (hen : settings.SLACK_ENABLED = true)
    (htok : settings.SLACK_BOT_TOKEN ≠ "")
    (hch : settings.SLACK_CHANNEL ≠ "")
    (hfind : orders.find? (fun x => x.id == oid) = some o) :
    (code ∈ non_retriable →
      send_order_notification settings orders (.success ⟨false, some code⟩) oid event
        = (.errorResult code, true)) ∧
    (code ∉ non_retriable →
      send_order_notification settings orders (.success ⟨false, some code⟩) oid event
        = (.raisedHTTPError ("Slack API error: " ++ code), true) ∧
      send_order_notification_retry_policy.autoretry_for_HTTPError = true ∧
      send_order_notification_retry_policy.retry_backoff = true ∧
      send_order_notification_retry_policy.retry_backoff_max = 60 ∧
      send_order_notification_retry_policy.max_retries = 3) ∧
    non_retriable = ["invalid_auth", "channel_not_found", "not_in_channel", "is_archived"] ∧
    "channel_not_found" ∈ non_retriable := by
  have ht : (settings.SLACK_BOT_TOKEN == "") = false := beq_false_of_ne htok
  have hc : (settings.SLACK_CHANNEL == "") = false := beq_false_of_ne hch
  refine ⟨?_, ?_, rfl, by decide⟩
  · intro hmem
    simp [send_order_notification, hen, ht, hc, hfind, List.elem_iff, hmem]
  · intro hmem
    refine ⟨?_, rfl, rfl, rfl, rfl⟩
    simp [send_order_notification, hen, ht, hc, hfind, List.elem_iff, hmem]

/-- Witness for C7: with enabled settings and the sample order present, a
provider reply `{ok: false, error: "channel_not_found"}` yields the
terminal error outcome with no retry. -/
theorem C7_witness :
    sampleSettings.SLACK_ENABLED = true ∧
    sampleSettings.SLACK_BOT_TOKEN ≠ "" ∧
    sampleSettings.SLACK_CHANNEL ≠ "" ∧
    sampleStore.orders.find? (fun x => x.id == 1) = some sampleOrder ∧
    "channel_not_found" ∈ non_retriable ∧
    send_order_notification sampleSettings sampleStore.orders
      (.success ⟨false, some "channel_not_found"⟩) 1 "status_updated"
      = (.errorResult "channel_not_found", true) := by
  have hen : sampleSettings.SLACK_ENABLED = true := rfl
  have htok : sampleSettings.SLACK_BOT_TOKEN ≠ "" := by decide
  have hch : sampleSettings.SLACK_CHANNEL ≠ "" := by decide
  have hfind : sampleStore.orders.find? (fun x => x.id == 1) = some sampleOrder := by decide
  have h := C7_provider_error_classification sampleSettings sampleStore.orders 1
    "status_updated" sampleOrder "channel_not_found" hen htok hch hfind
  exact ⟨hen, htok, hch, hfind, h.2.2.2, h.1 h.2.2.2⟩

/-- C8: if notifications are disabled, or the bot token or channel is
missing, the task returns a "skipped" outcome without contacting the
provider, whatever the order id, event kind, store contents and transport
environment; and a skipped outcome is not a failure outcome. -/
theorem C8_skipped_without_provider_call
    (settings : SlackSettings) (orders : List Order) (transport : TransportResult)
    (oid : Nat) (event : String) :
    (settings.SLACK_ENABLED = false →
      send_order_notification settings orders transport oid event
        = (.skipped "slack_disabled", false)) ∧
    (settings.SLACK_ENABLED = true →
      settings.SLACK_BOT_TOKEN = "" ∨ settings.SLACK_CHANNEL = "" →
      send_order_notification settings orders transport oid event
        = (.skipped "no_slack_config", false)) ∧
    (∀ r m, TaskOutcome.skipped r ≠ .errorResult m ∧
      TaskOutcome.skipped r ≠ .raisedHTTPError m) := by
  refine ⟨?_, ?_, fun r m => ⟨fun h => (nomatch h), fun h => nomatch h⟩⟩
  · intro hdis
    simp [send_order_notification, hdis]
  · intro hen hmiss
    rcases hmiss with hm | hm <;>
      simp [send_order_notification, hen, hm]

/-- Witness for C8: with Slack disabled the task skips; with Slack enabled
but no token it also skips; neither contacts the provider. -/
theorem C8_witness :
    send_order_notification ⟨false, "xoxb-token", "#orders"⟩ sampleStore.orders
      (.success ⟨true, none⟩) 1 "created" = (.skipped "slack_disabled", false) ∧
    send_order_notification ⟨true, "", "#orders"⟩ sampleStore.orders
      (.success ⟨true, none⟩) 1 "created" = (.skipped "no_slack_config", false) := by
  have h1 := (C8_skipped_without_provider_call ⟨false, "xoxb-token", "#orders"⟩
    sampleStore.orders (.success ⟨true, none⟩) 1 "created").1 rfl
  have h2 := (C8_skipped_without_provider_call ⟨true, "", "#orders"⟩
    sampleStore.orders (.success ⟨true, none⟩) 1 "created").2.1 rfl (Or.inl rfl)
  exact ⟨h1, h2⟩

/-- C9: a successful status update changes only `status` and `updated_at`:
the returned (and persisted) record keeps the original id, order number,
customer name, product name, quantity, price and creation time, and only
the target row of the store is rewritten. -/
theorem C9_update_touches_only_status_and_updated_at
    (now : Nat) (store : Store) (oid : Nat) (tgt : OrderStatus) (o o2 : Order)
    (hfind : store.orders.find? (fun x => x.id == oid) = some o)
    (hok : (update_order_status now store oid tgt).result = .ok o2) :
    o2.id = o.id ∧ o2.order_number = o.order_number ∧
    o2.customer_name = o.customer_name ∧ o2.product_name = o.product_name ∧
    o2.quantity = o.quantity ∧ o2.price = o.price ∧
    o2.created_at = o.created_at ∧
    o2.status = tgt ∧ o2.updated_at = now ∧
    (update_order_status now store oid tgt).store.orders
      = store.orders.map (fun x => if x.id == oid then o2 else x) := by
  unfold update_order_status at hok ⊢
  rw [hfind] at hok ⊢
  by_cases hm : tgt ∈ VALID_TRANSITIONS o.status
  · simp [List.elem_iff, hm, Except.ok.injEq] at hok
    subst hok
    simp [List.elem_iff, hm]
  · simp [List.elem_iff, hm] at hok

/-- Witness for C9: confirming the pending sample order at time 3 keeps
every field except `status` and `updated_at`. -/
theorem C9_witness :
    sampleStore.orders.find? (fun x => x.id == 1) = some sampleOrder ∧
    (update_order_status 3 sampleStore 1 .confirmed).result
      = .ok ⟨1, "ORD-AAAAAA", "Alice", "Widget", 1, 100, .confirmed, 0, 3⟩ ∧
    (⟨1, "ORD-AAAAAA", "Alice", "Widget", 1, 100, .confirmed, 0, 3⟩ : Order).order_number
      = sampleOrder.order_number ∧
    (⟨1, "ORD-AAAAAA", "Alice", "Widget", 1, 100, .confirmed, 0, 3⟩ : Order).created_at
      = sampleOrder.created_at := by
  have hfind : sampleStore.orders.find? (fun x => x.id == 1) = some sampleOrder := by decide
  have hok : (update_order_status 3 sampleStore 1 .confirmed).result
      = .ok ⟨1, "ORD-AAAAAA", "Alice", "Widget", 1, 100, .confirmed, 0, 3⟩ := by rfl
  have h := C9_update_touches_only_status_and_updated_at 3 sampleStore 1 .confirmed
    sampleOrder ⟨1, "ORD-AAAAAA", "Alice", "Widget", 1, 100, .confirmed, 0, 3⟩ hfind hok
  exact ⟨hfind, hok, h.2.1, h.2.2.2.2.2.2.1⟩

end OrderNotify
